import Mathlib

/-!
Verification development for the PCCOER-HELP-DESK bonafide-certificate system.

The embedding follows the two source files:
* `TgBot.py` — the Telegram conversation that verifies a requester (PRN,
  name, phone) against the `Students` directory and pushes one application
  record (`get_prn`, `get_name`, `get_phone`, `confirm_submission`, and the
  `ConversationHandler` wiring in `main`).
* `web.py` — the admin console endpoints `process_application` (status
  update) and `print_bonafide` (certificate data assembly).

Strings are modelled as `List Char`.  The Python string primitives the code
relies on (`str.strip`, `str.upper`, `str.isdigit`, `str.isascii`,
`unicodedata.digit`) are modelled below; the Unicode character tables behind
them are represented by finite code-point tables (`pySpaceCodes`,
`ucdDigit`) that restrict the Unicode Character Database to the ranges the
model covers, preserving the defining property that `str.isdigit` holds for
exactly the characters `unicodedata.digit` is defined on
(Numeric_Type=Decimal or Digit).
-/

/-- Convert a Lean string literal to the `List Char` string model. -/
def str (s : String) : List Char := s.data

/-- Code points Python `str.strip()` removes (characters with
`str.isspace() = True`), i.e. Unicode whitespace. -/
def pySpaceCodes : List Nat :=
  [9, 10, 11, 12, 13, 28, 29, 30, 31, 32, 0x85, 0xa0, 0x1680,
   0x2000, 0x2001, 0x2002, 0x2003, 0x2004, 0x2005, 0x2006, 0x2007,
   0x2008, 0x2009, 0x200a, 0x2028, 0x2029, 0x202f, 0x205f, 0x3000]

/-- Model of Python `str.isspace()` on a single character. -/
def pyIsSpace (c : Char) : Bool := pySpaceCodes.contains c.toNat

/-- Model of Python `str.strip()`: drop whitespace from both ends. -/
def pyStrip (s : List Char) : List Char :=
  ((s.dropWhile pyIsSpace).reverse.dropWhile pyIsSpace).reverse

/-- Model of Python `str.upper()` on one character (ASCII case mapping;
characters outside the ASCII letters are left unchanged). -/
def pyUpperChar (c : Char) : Char :=
  if 97 ≤ c.toNat ∧ c.toNat ≤ 122 then Char.ofNat (c.toNat - 32) else c

/-- Model of Python `str.upper()`. -/
def pyUpper (s : List Char) : List Char := s.map pyUpperChar

/-- Model of Python `str.isascii()` on one character. -/
def pyIsAscii (c : Char) : Bool := c.toNat < 128

/-- The digit-value table of the Unicode Character Database on code points
(finite model covering ASCII, Arabic-Indic, Devanagari, fullwidth,
superscript and circled digits). -/
def ucdDigitN (n : Nat) : Option Nat :=
  if 48 ≤ n ∧ n ≤ 57 then some (n - 48)
  else if 0x660 ≤ n ∧ n ≤ 0x669 then some (n - 0x660)
  else if 0x966 ≤ n ∧ n ≤ 0x96f then some (n - 0x966)
  else if 0xff10 ≤ n ∧ n ≤ 0xff19 then some (n - 0xff10)
  else if n = 0xb2 then some 2
  else if n = 0xb3 then some 3
  else if n = 0xb9 then some 1
  else if n = 0x2070 then some 0
  else if 0x2074 ≤ n ∧ n ≤ 0x2079 then some (n - 0x2070)
  else if 0x2460 ≤ n ∧ n ≤ 0x2468 then some (n - 0x245f)
  else none

/-- Model of `unicodedata.digit`: the digit value a character carries in the
Unicode Character Database (`none` when undefined); exactly the characters
with a digit value satisfy Python `str.isdigit()`. -/
def ucdDigit (c : Char) : Option Nat := ucdDigitN c.toNat

/-- Model of Python `str.isdigit()`: nonempty and every character has a
digit value in the Unicode tables. -/
def pyIsDigitStr (s : List Char) : Bool :=
  !s.isEmpty && s.all (fun c => (ucdDigit c).isSome)

/-- The ASCII digit character for a digit value (`str(d)` in the source's
conversion loop). -/
def asciiDigitChar (d : Nat) : Char := Char.ofNat (48 + d)

/-- Whether a character is an ASCII digit `'0'`–`'9'`. -/
def isAsciiDigit (c : Char) : Bool := 48 ≤ c.toNat ∧ c.toNat ≤ 57

/-- One step of the source's PRN conversion loop in `get_prn`: replace a
character by `str(unicodedata.digit(ch))` when defined, keep it otherwise. -/
def convChar (c : Char) : Char :=
  match ucdDigit c with
  | some d => asciiDigitChar d
  | none => c

/-- The PRN normalization performed by `get_prn` in `TgBot.py`: strip the
raw text; if any character is non-ASCII, map every character through the
`unicodedata.digit` conversion loop. -/
def normalizePrn (s : List Char) : List Char :=
  let prn := pyStrip s
  if prn.all pyIsAscii then prn else prn.map convChar

/-- The acceptance test of `get_prn`: `prn.isdigit() and len(prn) == 8` on
the normalized PRN. -/
def prnValid (s : List Char) : Bool :=
  pyIsDigitStr (normalizePrn s) && (normalizePrn s).length == 8

-- ------------------------------------------------------------------
-- Telegram conversation (TgBot.py)
-- ------------------------------------------------------------------

/-- Conversation states of the bonafide flow (`GET_PRN, GET_NAME, GET_PHONE,
CONFIRM = range(4)`), plus the terminal `ConversationHandler.END`. -/
inductive ConvState where
  | GET_PRN
  | GET_NAME
  | GET_PHONE
  | CONFIRM
  | END
deriving DecidableEq, Repr

/-- A student directory entry (`Students/<prn>` in the store).  Fields are
optional because the underlying record is a key/value node. -/
structure StudentRecord where
  name : Option (List Char)
  phone : Option (List Char)
  batch : Option (List Char)
deriving DecidableEq, Repr

/-- The student directory (`student_ref`): lookup by PRN. -/
def Directory : Type := List Char → Option StudentRecord

/-- An application node under `bonafide_applications`.  Every key either
file ever reads or writes is a field; `none` means the key is absent. -/
structure AppNode where
  prn : Option (List Char) := none
  name : Option (List Char) := none
  phone : Option (List Char) := none
  batch : Option (List Char) := none
  status : Option (List Char) := none
  submitted_at : Option (List Char) := none
  processed_at : Option (List Char) := none
  processed_by : Option (List Char) := none
  year : Option (List Char) := none
  branch : Option (List Char) := none
  purpose : Option (List Char) := none
deriving DecidableEq, Repr

/-- Per-user conversation data (`context.user_data`). -/
structure Session where
  state : ConvState
  prn : Option (List Char) := none
  student : Option StudentRecord := none
  name : Option (List Char) := none
  phone : Option (List Char) := none
deriving DecidableEq, Repr

/-- Incoming transport events: a non-command text message, an inline-button
press carrying its `callback_data`, or the `/cancel` command. -/
inductive Event where
  | text (t : List Char)
  | callback (d : List Char)
  | cancel
deriving DecidableEq, Repr

/-- Which user-visible response a step produced (one constructor per
distinct message branch in the source handlers). -/
inductive Reply where
  | malformedIdentifier
  | recordNotFound
  | promptName
  | nameMismatch
  | promptPhone
  | phoneMismatch
  | promptConfirm
  | submitted
  | cancelled
  | ignored
deriving DecidableEq, Repr

/-- Result of one conversation step: the new session, the application data
passed to `applications_ref.push().set(...)` when the step invoked the
repository create, and the reply that was sent. -/
structure StepResult where
  sess : Session
  created : Option AppNode
  reply : Reply
deriving DecidableEq, Repr

/-- The stored name of the session's looked-up student
(`str(student_data.get("name", ""))`). -/
def studentName (s : Session) : List Char :=
  match s.student with
  | some r => r.name.getD []
  | none => []

/-- The stored phone of the session's looked-up student
(`str(student_data.get("phone", ""))`). -/
def studentPhone (s : Session) : List Char :=
  match s.student with
  | some r => r.phone.getD []
  | none => []

/-- Handler `get_prn`: normalize and validate the PRN, look it up in the
directory; on malformed input or unknown PRN stay in `GET_PRN`, otherwise
record the PRN and student data and move to `GET_NAME`. -/
def get_prn (dir : Directory) (s : Session) (t : List Char) : StepResult :=
  let prn := normalizePrn t
  if pyIsDigitStr prn && prn.length == 8 then
    match dir prn with
    | none => ⟨{ s with state := .GET_PRN }, none, .recordNotFound⟩
    | some rec =>
        ⟨{ s with state := .GET_NAME, prn := some prn, student := some rec },
         none, .promptName⟩
  else ⟨{ s with state := .GET_PRN }, none, .malformedIdentifier⟩

/-- Handler `get_name`: compare `text.strip().upper()` with the stored
name's `strip().upper()`; on mismatch stay in `GET_NAME`, otherwise store
the submitted name (`text.strip()`) and move to `GET_PHONE`. -/
def get_name (s : Session) (t : List Char) : StepResult :=
  let name_input := pyUpper (pyStrip t)
  let correct_name := pyUpper (pyStrip (studentName s))
  if name_input ≠ correct_name then ⟨s, none, .nameMismatch⟩
  else ⟨{ s with state := .GET_PHONE, name := some (pyStrip t) }, none, .promptPhone⟩

/-- Handler `get_phone`: compare `text.strip()` with the stored phone's
`strip()`; on mismatch stay in `GET_PHONE`, otherwise store the phone and
move to `CONFIRM`. -/
def get_phone (s : Session) (t : List Char) : StepResult :=
  let phone_input := pyStrip t
  let correct_phone := pyStrip (studentPhone s)
  if phone_input ≠ correct_phone then ⟨s, none, .phoneMismatch⟩
  else ⟨{ s with state := .CONFIRM, phone := some phone_input }, none, .promptConfirm⟩

/-- Handler `confirm_submission`: on `confirm_yes` build the application
data and push it (the repository create); on `confirm_no` cancel.  Either
way the conversation returns `ConversationHandler.END`. -/
def confirm_submission (now : List Char) (s : Session) (d : List Char) : StepResult :=
  if d = str "confirm_yes" then
    let application_data : AppNode :=
      { prn := s.prn
        name := s.name
        phone := s.phone
        batch := s.student.bind StudentRecord.batch
        status := some (str "Pending")
        submitted_at := some now }
    ⟨{ s with state := .END }, some application_data, .submitted⟩
  else ⟨{ s with state := .END }, none, .cancelled⟩

/-- Dispatch of one event against the `ConversationHandler` wiring in
`main`: each state's registered handlers, the `/cancel` and
`callback_data = "cancel"` fallbacks, and `END` as a dead state (the
conversation is over; a fresh session is a new `Session` value). -/
def convStep (dir : Directory) (now : List Char) (s : Session) (e : Event) : StepResult :=
  match s.state, e with
  | .END, _ => ⟨s, none, .ignored⟩
  | _, .cancel => ⟨{ s with state := .END }, none, .cancelled⟩
  | .GET_PRN, .text t => get_prn dir s t
  | .GET_NAME, .text t => get_name s t
  | .GET_PHONE, .text t => get_phone s t
  | .CONFIRM, .text _ => ⟨s, none, .ignored⟩
  | .CONFIRM, .callback d =>
      if d = str "confirm_yes" ∨ d = str "confirm_no" then confirm_submission now s d
      else if d = str "cancel" then ⟨{ s with state := .END }, none, .cancelled⟩
      else ⟨s, none, .ignored⟩
  | _, .callback d =>
      if d = str "cancel" then ⟨{ s with state := .END }, none, .cancelled⟩
      else ⟨s, none, .ignored⟩

/-- Number of repository create calls a session performs over a trace of
events. -/
def createCount (dir : Directory) (now : List Char) : Session → List Event → Nat
  | _, [] => 0
  | s, e :: es =>
      let r := convStep dir now s e
      (if r.created.isSome then 1 else 0) + createCount dir now r.sess es

/-- Run a trace of events, collecting the application records created, in
order. -/
def runSession (dir : Directory) (now : List Char) :
    Session → List Event → Session × List AppNode
  | s, [] => (s, [])
  | s, e :: es =>
      let r := convStep dir now s e
      let rest := runSession dir now r.sess es
      (rest.1, (match r.created with | some a => [a] | none => []) ++ rest.2)

-- ------------------------------------------------------------------
-- Admin console (web.py)
-- ------------------------------------------------------------------

/-- The `bonafide_applications` store: application id to node, `none` when
no node exists at that id (Firebase has no empty nodes, so a falsy read and
an absent node coincide). -/
def AppStore : Type := List Char → Option AppNode

/-- Firebase Realtime Database `applications_ref.child(app_id).update(...)`
with the two keys `process_application` writes: merge `status` and
`processed_at` into the node at `app_id`, creating the node when the path
does not exist (RTDB `update` writes the listed children unconditionally). -/
def fbChildUpdate (store : AppStore) (app_id : List Char)
    (status processed_at : List Char) : AppStore :=
  fun k =>
    if k = app_id then
      match store app_id with
      | some n => some { n with status := some status, processed_at := some processed_at }
      | none => some { status := some status, processed_at := some processed_at }
    else store k

/-- The closed status set accepted by `process_application`
(`("Pending", "Approved", "Rejected")`). -/
def statusChoices : List (List Char) := [str "Pending", str "Approved", str "Rejected"]

/-- Outcome flashed by `process_application`. -/
inductive ProcessOutcome where
  | invalidStatus
  | updated
deriving DecidableEq, Repr

/-- Endpoint `process_application` in `web.py`: strip the posted status,
reject anything outside `statusChoices` without touching the store,
otherwise write `status` and `processed_at` through `fbChildUpdate`. -/
def process_application (store : AppStore) (app_id : List Char)
    (form_status : List Char) (now : List Char) : AppStore × ProcessOutcome :=
  let new_status := pyStrip form_status
  if new_status ∈ statusChoices then
    (fbChildUpdate store app_id new_status now, .updated)
  else (store, .invalidStatus)

/-- The field tuple `print_bonafide` draws on the certificate (with the
source's defaults for the keys the submission flow never writes). -/
structure CertData where
  name : List Char
  prn : List Char
  batch : List Char
  branch : List Char
  year : List Char
  purpose : List Char
deriving DecidableEq, Repr

/-- Result of certificate data assembly. -/
inductive CertResult where
  | notFound
  | notApproved
  | data (d : CertData)
deriving DecidableEq, Repr

/-- Endpoint `print_bonafide` in `web.py`: 404 when the node is absent,
403 when `status != "Approved"`, otherwise assemble the certificate
fields with defaults. -/
def print_bonafide (store : AppStore) (app_id : List Char) : CertResult :=
  match store app_id with
  | none => .notFound
  | some a =>
      if a.status ≠ some (str "Approved") then .notApproved
      else .data
        { name := a.name.getD []
          prn := a.prn.getD []
          batch := a.batch.getD []
          branch := a.branch.getD (str "Engineering")
          year := a.year.getD (str "First Year")
          purpose := a.purpose.getD (str "Bonafide Certificate") }

-- ------------------------------------------------------------------
-- Character-level lemmas about the Unicode tables
-- ------------------------------------------------------------------

theorem ucdDigitN_lt_ten {n d : Nat} (h : ucdDigitN n = some d) : d < 10 := by
  unfold ucdDigitN at h
  repeat' split at h
  all_goals first
    | (injection h with h; omega)
    | exact absurd h (by simp)

theorem ucdDigitN_ascii {n d : Nat} (ha : n < 128) (h : ucdDigitN n = some d) :
    48 ≤ n ∧ n ≤ 57 ∧ d = n - 48 := by
  unfold ucdDigitN at h
  repeat' split at h
  all_goals first
    | (injection h with h; omega)
    | exact absurd h (by simp)

theorem char_toNat_inj {a b : Char} (h : a.toNat = b.toNat) : a = b :=
  Char.eq_of_val_eq (UInt32.toNat.inj h)

theorem asciiDigitChar_toNat {d : Nat} (h : d < 10) :
    (asciiDigitChar d).toNat = 48 + d := by
  interval_cases d <;> decide

theorem isAsciiDigit_iff {c : Char} :
    isAsciiDigit c = true ↔ 48 ≤ c.toNat ∧ c.toNat ≤ 57 := by
  unfold isAsciiDigit
  simp

theorem pyIsAscii_iff {c : Char} : pyIsAscii c = true ↔ c.toNat < 128 := by
  unfold pyIsAscii
  simp

theorem convChar_ascii {c : Char} (ha : pyIsAscii c = true) : convChar c = c := by
  unfold convChar
  cases hu : ucdDigit c with
  | none => rfl
  | some d =>
      unfold ucdDigit at hu
      obtain ⟨h1, h2, h3⟩ := ucdDigitN_ascii (pyIsAscii_iff.mp ha) hu
      apply char_toNat_inj
      rw [asciiDigitChar_toNat (by omega)]
      omega

theorem convChar_digit {c : Char} (h : (ucdDigit c).isSome = true) :
    isAsciiDigit (convChar c) = true := by
  unfold convChar
  cases hu : ucdDigit c with
  | none => rw [hu] at h; simp at h
  | some d =>
      unfold ucdDigit at hu
      have hd := ucdDigitN_lt_ten hu
      rw [isAsciiDigit_iff, asciiDigitChar_toNat hd]
      omega

theorem ucd_of_asciiDigit {c : Char} (h : isAsciiDigit c = true) :
    ucdDigit c = some (c.toNat - 48) := by
  unfold ucdDigit ucdDigitN
  rw [if_pos (isAsciiDigit_iff.mp h)]

theorem ascii_digit_of_ucd {c : Char} (ha : pyIsAscii c = true)
    (h : (ucdDigit c).isSome = true) : isAsciiDigit c = true := by
  cases hu : ucdDigit c with
  | none => rw [hu] at h; simp at h
  | some d =>
      unfold ucdDigit at hu
      obtain ⟨h1, h2, _⟩ := ucdDigitN_ascii (pyIsAscii_iff.mp ha) hu
      exact isAsciiDigit_iff.mpr ⟨h1, h2⟩

/-- The claim's normalization, stated from the spec's words: trim
whitespace, then map every non-ASCII numeral character to its ASCII digit
(ASCII characters are untouched). -/
def specNormalizePrn (s : List Char) : List Char :=
  (pyStrip s).map (fun c => if pyIsAscii c then c else convChar c)

theorem convChar_cases (c : Char) :
    isAsciiDigit (convChar c) = true ∨ (convChar c = c ∧ ucdDigit c = none) := by
  unfold convChar
  cases hu : ucdDigit c with
  | none => exact Or.inr ⟨rfl, rfl⟩
  | some d =>
      left
      unfold ucdDigit at hu
      have hd := ucdDigitN_lt_ten hu
      rw [isAsciiDigit_iff, asciiDigitChar_toNat hd]
      omega

theorem normalizePrn_eq_spec (s : List Char) : normalizePrn s = specNormalizePrn s := by
  simp only [normalizePrn, specNormalizePrn]
  split
  · rename_i h
    rw [List.all_eq_true] at h
    symm
    calc (pyStrip s).map (fun c => if pyIsAscii c then c else convChar c)
        = (pyStrip s).map id := by
          apply List.map_congr_left
          intro a ha
          simp [h a ha]
      _ = pyStrip s := List.map_id _
  · apply List.map_congr_left
    intro a _
    by_cases hc : pyIsAscii a = true
    · simp [hc, convChar_ascii hc]
    · simp [hc]

theorem normalizePrn_elem_ascii {s : List Char} {c : Char} (hc : c ∈ normalizePrn s)
    (hd : (ucdDigit c).isSome = true) : isAsciiDigit c = true := by
  simp only [normalizePrn] at hc
  split at hc
  · rename_i h
    rw [List.all_eq_true] at h
    exact ascii_digit_of_ucd (h c hc) hd
  · obtain ⟨c₀, _, rfl⟩ := List.mem_map.mp hc
    rcases convChar_cases c₀ with h | ⟨heq, hnone⟩
    · exact h
    · rw [heq] at hd ⊢
      rw [hnone] at hd
      simp at hd

theorem prnValid_iff (s : List Char) :
    prnValid s = true ↔
      (normalizePrn s).length = 8 ∧ ∀ c ∈ normalizePrn s, isAsciiDigit c = true := by
  unfold prnValid pyIsDigitStr
  constructor
  · intro h
    simp only [Bool.and_eq_true, beq_iff_eq, List.all_eq_true, Bool.not_eq_true'] at h
    obtain ⟨⟨_, hall⟩, hlen⟩ := h
    exact ⟨hlen, fun c hc => normalizePrn_elem_ascii hc (hall c hc)⟩
  · rintro ⟨hlen, hdig⟩
    simp only [Bool.and_eq_true, beq_iff_eq, List.all_eq_true, Bool.not_eq_true']
    refine ⟨⟨?_, fun c hc => ?_⟩, hlen⟩
    · rw [List.isEmpty_eq_false_iff_exists_mem]
      cases hn : normalizePrn s with
      | nil => rw [hn] at hlen; simp at hlen
      | cons a l => exact ⟨a, List.mem_cons_self a l⟩
    · rw [ucd_of_asciiDigit (hdig c hc)]
      rfl

theorem get_prn_no_create (dir : Directory) (s : Session) (t : List Char) :
    (get_prn dir s t).created = none := by
  simp only [get_prn]
  repeat' split
  all_goals rfl

theorem get_name_no_create (s : Session) (t : List Char) :
    (get_name s t).created = none := by
  simp only [get_name]
  split
  all_goals rfl

theorem get_phone_no_create (s : Session) (t : List Char) :
    (get_phone s t).created = none := by
  simp only [get_phone]
  split
  all_goals rfl

theorem created_step {dir : Directory} {now : List Char} {s : Session} {e : Event}
    (h : (convStep dir now s e).created.isSome = true) :
    s.state = ConvState.CONFIRM ∧ e = Event.callback (str "confirm_yes") ∧
      (convStep dir now s e).sess.state = ConvState.END := by
  obtain ⟨st, p, stu, nm, ph⟩ := s
  cases st <;> cases e
  case GET_PRN.text t => simp [convStep, get_prn_no_create] at h
  case GET_PRN.callback d =>
    simp only [convStep] at h
    split at h <;> simp at h
  case GET_PRN.cancel => simp [convStep] at h
  case GET_NAME.text t => simp [convStep, get_name_no_create] at h
  case GET_NAME.callback d =>
    simp only [convStep] at h
    split at h <;> simp at h
  case GET_NAME.cancel => simp [convStep] at h
  case GET_PHONE.text t => simp [convStep, get_phone_no_create] at h
  case GET_PHONE.callback d =>
    simp only [convStep] at h
    split at h <;> simp at h
  case GET_PHONE.cancel => simp [convStep] at h
  case CONFIRM.text t => simp [convStep] at h
  case CONFIRM.callback d =>
    by_cases hy : d = str "confirm_yes"
    · subst hy
      refine ⟨rfl, rfl, ?_⟩
      simp [convStep, confirm_submission]
    · by_cases hn : d = str "confirm_no"
      · subst hn
        simp [convStep, confirm_submission, hy] at h
      · simp only [convStep] at h
        rw [if_neg (by simp [hy, hn])] at h
        split at h <;> simp at h
  case CONFIRM.cancel => simp [convStep] at h
  case END.text t => simp [convStep] at h
  case END.callback d => simp [convStep] at h
  case END.cancel => simp [convStep] at h

theorem end_no_create (dir : Directory) (now : List Char) (s : Session) (e : Event)
    (h : s.state = ConvState.END) :
    convStep dir now s e = ⟨s, none, Reply.ignored⟩ := by
  obtain ⟨st, p, stu, nm, ph⟩ := s
  simp only at h
  subst h
  cases e <;> rfl

theorem createCount_end (dir : Directory) (now : List Char) (s : Session)
    (tr : List Event) (h : s.state = ConvState.END) : createCount dir now s tr = 0 := by
  induction tr generalizing s with
  | nil => rfl
  | cons e es ih =>
      simp only [createCount, end_no_create dir now s e h]
      simpa using ih s h

theorem createCount_le_one (dir : Directory) (now : List Char) (s : Session)
    (tr : List Event) : createCount dir now s tr ≤ 1 := by
  induction tr generalizing s with
  | nil => simp [createCount]
  | cons e es ih =>
      simp only [createCount]
      by_cases h : (convStep dir now s e).created.isSome = true
      · obtain ⟨_, _, hend⟩ := created_step h
        rw [if_pos h, createCount_end _ _ _ _ hend]
      · rw [if_neg h]
        simpa using ih (convStep dir now s e).sess

-- ------------------------------------------------------------------
-- Lemmas about the admin console operations
-- ------------------------------------------------------------------

theorem process_application_of_valid (store : AppStore) (app_id fs now : List Char)
    (h : pyStrip fs ∈ statusChoices) :
    process_application store app_id fs now =
      (fbChildUpdate store app_id (pyStrip fs) now, ProcessOutcome.updated) := by
  simp only [process_application]
  rw [if_pos h]

theorem process_application_of_invalid (store : AppStore) (app_id fs now : List Char)
    (h : pyStrip fs ∉ statusChoices) :
    process_application store app_id fs now = (store, ProcessOutcome.invalidStatus) := by
  simp only [process_application]
  rw [if_neg h]

theorem fbChildUpdate_self_some {store : AppStore} {app_id : List Char} {n : AppNode}
    (hs : store app_id = some n) (st ts : List Char) :
    fbChildUpdate store app_id st ts app_id =
      some { n with status := some st, processed_at := some ts } := by
  simp only [fbChildUpdate]
  rw [if_pos trivial, hs]

theorem fbChildUpdate_self_none {store : AppStore} {app_id : List Char}
    (hs : store app_id = none) (st ts : List Char) :
    fbChildUpdate store app_id st ts app_id =
      some { status := some st, processed_at := some ts } := by
  simp only [fbChildUpdate]
  rw [if_pos trivial, hs]

theorem fbChildUpdate_other {store : AppStore} {app_id k : List Char}
    (h : k ≠ app_id) (st ts : List Char) :
    fbChildUpdate store app_id st ts k = store k := by
  simp only [fbChildUpdate]
  rw [if_neg h]

-- ------------------------------------------------------------------
-- Concrete fixtures used by witnesses and counterexamples
-- ------------------------------------------------------------------

/-- An empty student directory. -/
def dirEmpty : Directory := fun _ => none

/-- A fresh verification session, as created by `start_bonafide_flow`. -/
def sessionStart : Session := { state := ConvState.GET_PRN }

/-- The directory entry of the testable-properties scenario. -/
def johnRecord : StudentRecord :=
  ⟨some (str "John Smith"), some (str "9000000000"), some (str "2024-28")⟩

/-- A directory holding only PRN `12345678` for the scenario. -/
def dirC2 : Directory := fun k => if k = str "12345678" then some johnRecord else none

/-- The submission timestamp used in the scenario run. -/
def dateC2 : List Char := str "2025-01-01 10:00:00"

/-- The scenario's event sequence: PRN, lowercase name, wrong phone, right
phone, affirmative confirmation. -/
def eventsC2 : List Event :=
  [Event.text (str "12345678"), Event.text (str "john smith"),
   Event.text (str "9000000001"), Event.text (str "9000000000"),
   Event.callback (str "confirm_yes")]

/-- A stored Pending application node. -/
def nodePendingA1 : AppNode :=
  { prn := some (str "12345678"), name := some (str "john smith"),
    phone := some (str "9000000000"), batch := some (str "2024-28"),
    status := some (str "Pending"), submitted_at := some dateC2 }

/-- A store holding the Pending node under id `A1`. -/
def storeA1 : AppStore := fun k => if k = str "A1" then some nodePendingA1 else none

/-- The same application, Approved. -/
def nodeApprovedB1 : AppNode := { nodePendingA1 with status := some (str "Approved") }

/-- A store holding the Approved node under id `B1`. -/
def storeB1 : AppStore := fun k => if k = str "B1" then some nodeApprovedB1 else none

/-- A store with no applications at all. -/
def emptyStore : AppStore := fun _ => none

/-- A session awaiting the name, whose looked-up student is canonical
`Jane Doe`. -/
def janeSession : Session :=
  { state := ConvState.GET_NAME, student := some ⟨some (str "Jane Doe"), none, none⟩ }

/-- A session awaiting the phone, with registered phone `09876543210`. -/
def phoneSession0 : Session :=
  { state := ConvState.GET_PHONE, student := some ⟨none, some (str "09876543210"), none⟩ }

/-- A session awaiting the phone, with registered phone `9000000000`. -/
def phoneSession9 : Session :=
  { state := ConvState.GET_PHONE, student := some ⟨none, some (str "9000000000"), none⟩ }

-- ------------------------------------------------------------------
-- Branch lemmas for the conversation handlers
-- ------------------------------------------------------------------

theorem convStep_text_getprn (dir : Directory) (now : List Char) {s : Session}
    (hs : s.state = ConvState.GET_PRN) (t : List Char) :
    convStep dir now s (Event.text t) = get_prn dir s t := by
  obtain ⟨st, p, stu, nm, ph⟩ := s
  simp only at hs
  subst hs
  rfl

theorem convStep_text_getname (dir : Directory) (now : List Char) {s : Session}
    (hs : s.state = ConvState.GET_NAME) (t : List Char) :
    convStep dir now s (Event.text t) = get_name s t := by
  obtain ⟨st, p, stu, nm, ph⟩ := s
  simp only at hs
  subst hs
  rfl

theorem convStep_text_getphone (dir : Directory) (now : List Char) {s : Session}
    (hs : s.state = ConvState.GET_PHONE) (t : List Char) :
    convStep dir now s (Event.text t) = get_phone s t := by
  obtain ⟨st, p, stu, nm, ph⟩ := s
  simp only at hs
  subst hs
  rfl

theorem get_prn_of_invalid (dir : Directory) {s : Session} {t : List Char}
    (hs : s.state = ConvState.GET_PRN) (hv : prnValid t = false) :
    get_prn dir s t = ⟨s, none, Reply.malformedIdentifier⟩ := by
  obtain ⟨st, p, stu, nm, ph⟩ := s
  simp only at hs
  subst hs
  simp only [get_prn]
  unfold prnValid at hv
  rw [if_neg (by simp [hv])]

theorem get_name_of_match {s : Session} {t : List Char}
    (h : pyUpper (pyStrip t) = pyUpper (pyStrip (studentName s))) :
    get_name s t =
      ⟨{ s with state := ConvState.GET_PHONE, name := some (pyStrip t) },
       none, Reply.promptPhone⟩ := by
  simp only [get_name]
  rw [if_neg (not_not_intro h)]

theorem get_name_of_mismatch {s : Session} {t : List Char}
    (h : pyUpper (pyStrip t) ≠ pyUpper (pyStrip (studentName s))) :
    get_name s t = ⟨s, none, Reply.nameMismatch⟩ := by
  simp only [get_name]
  rw [if_pos h]

theorem get_phone_of_match {s : Session} {t : List Char}
    (h : pyStrip t = pyStrip (studentPhone s)) :
    get_phone s t =
      ⟨{ s with state := ConvState.CONFIRM, phone := some (pyStrip t) },
       none, Reply.promptConfirm⟩ := by
  simp only [get_phone]
  rw [if_neg (not_not_intro h)]

theorem get_phone_of_mismatch {s : Session} {t : List Char}
    (h : pyStrip t ≠ pyStrip (studentPhone s)) :
    get_phone s t = ⟨s, none, Reply.phoneMismatch⟩ := by
  simp only [get_phone]
  rw [if_pos h]

-- ------------------------------------------------------------------
-- Claims
-- ------------------------------------------------------------------

/-- Claim C1: repository create is invoked at most once per verification session:
the only step that invokes it is an affirmative confirmation callback in
the `CONFIRM` (AwaitingConfirmation) state; that step moves the session to
the terminal `END` state (the source returns `ConversationHandler.END` in a
`finally` block, so the transition is independent of the push outcome); a
terminal session never invokes create again; and over any event trace a
session invokes create at most once. -/
theorem create_at_most_once_per_session (dir : Directory) (now : List Char) :
    (∀ (s : Session) (e : Event), (convStep dir now s e).created.isSome = true →
      s.state = ConvState.CONFIRM ∧ e = Event.callback (str "confirm_yes") ∧
        (convStep dir now s e).sess.state = ConvState.END)
    ∧ (∀ (s : Session) (tr : List Event), s.state = ConvState.END →
        createCount dir now s tr = 0)
    ∧ (∀ (s : Session) (tr : List Event), createCount dir now s tr ≤ 1) :=
  ⟨fun _ _ h => created_step h,
   fun s tr h => createCount_end dir now s tr h,
   fun s tr => createCount_le_one dir now s tr⟩

/-- Witness for C1 at a concrete confirming session. -/
theorem create_at_most_once_per_session_witness :
    ({ state := ConvState.CONFIRM } : Session).state = ConvState.CONFIRM ∧
      Event.callback (str "confirm_yes") = Event.callback (str "confirm_yes") ∧
      (convStep dirEmpty dateC2 { state := ConvState.CONFIRM }
          (Event.callback (str "confirm_yes"))).sess.state = ConvState.END :=
  (create_at_most_once_per_session dirEmpty dateC2).1
    { state := ConvState.CONFIRM } (Event.callback (str "confirm_yes")) (by decide)

/-- Counterexample to C2: running the specified scenario, the single created
application stores the submitted lowercase name `"john smith"`, not the
canonical directory name `"John Smith"` the claim asserts. -/
theorem scenario_created_name_counterexample :
    (runSession dirC2 dateC2 sessionStart eventsC2).2.map AppNode.name =
      [some (str "john smith")] ∧ str "john smith" ≠ str "John Smith" := by
  decide

/-- Claim C2 as amended: the scenario accepts the identifier and the name, rejects
phone `"9000000001"` with `PhoneMismatch` staying in `GET_PHONE`, accepts
phone `"9000000000"`, and on affirmative confirmation performs exactly one
repository create whose record stores the submitted trimmed name
`"john smith"` (matching `"John Smith"` case-insensitively), phone
`"9000000000"`, batch `"2024-28"`, and status `Pending`. -/
theorem scenario_single_create :
    (runSession dirC2 dateC2 sessionStart (eventsC2.take 1)).1.state = ConvState.GET_NAME
    ∧ (runSession dirC2 dateC2 sessionStart (eventsC2.take 2)).1.state = ConvState.GET_PHONE
    ∧ (convStep dirC2 dateC2 (runSession dirC2 dateC2 sessionStart (eventsC2.take 2)).1
        (Event.text (str "9000000001"))).reply = Reply.phoneMismatch
    ∧ (runSession dirC2 dateC2 sessionStart (eventsC2.take 3)).1.state = ConvState.GET_PHONE
    ∧ (runSession dirC2 dateC2 sessionStart (eventsC2.take 4)).1.state = ConvState.CONFIRM
    ∧ (runSession dirC2 dateC2 sessionStart eventsC2).2 =
        [{ prn := some (str "12345678"), name := some (str "john smith"),
           phone := some (str "9000000000"), batch := some (str "2024-28"),
           status := some (str "Pending"), submitted_at := some dateC2 }]
    ∧ (runSession dirC2 dateC2 sessionStart eventsC2).1.state = ConvState.END := by
  decide

/-- Claim C8: identifier validation accepts exactly the inputs whose
normalization — trim surrounding whitespace, then map every non-ASCII
numeral character to its ASCII digit (the source's conditional conversion
agrees with this description on every input) — is exactly 8 ASCII digits;
every other text input in `GET_PRN` is rejected with `MalformedIdentifier`
and the session stays in `GET_PRN`, allowing unlimited retries. -/
theorem prn_validation_characterization :
    (∀ s : List Char, normalizePrn s = specNormalizePrn s)
    ∧ (∀ s : List Char, prnValid s = true ↔
        ((normalizePrn s).length = 8 ∧ ∀ c ∈ normalizePrn s, isAsciiDigit c = true))
    ∧ (∀ (dir : Directory) (now : List Char) (s : Session) (t : List Char),
        s.state = ConvState.GET_PRN → prnValid t = false →
          convStep dir now s (Event.text t) = ⟨s, none, Reply.malformedIdentifier⟩) :=
  ⟨normalizePrn_eq_spec, prnValid_iff,
   fun dir now s t hs hv => by
     rw [convStep_text_getprn dir now hs t, get_prn_of_invalid dir hs hv]⟩

/-- Witness for C8 at the malformed identifier `"12a45678"`. -/
theorem prn_validation_witness :
    convStep dirEmpty dateC2 sessionStart (Event.text (str "12a45678")) =
      ⟨sessionStart, none, Reply.malformedIdentifier⟩ :=
  prn_validation_characterization.2.2 dirEmpty dateC2 sessionStart (str "12a45678")
    (by decide) (by decide)

/-- Counterexample to C7: with registered phone `"9000000000"`, the submitted
text `" 9000000000"` is not string-equal to the registered phone, yet the
session is accepted into `CONFIRM` — `get_phone` trims surrounding
whitespace before comparing, contradicting the claim's "no normalization
applied". -/
theorem phone_exact_equality_counterexample :
    (convStep dirEmpty dateC2 phoneSession9 (Event.text (str " 9000000000"))).sess.state
        = ConvState.CONFIRM
    ∧ str " 9000000000" ≠ str "9000000000" := by
  decide

/-- Claim C7 as amended: phone verification accepts a submitted phone iff its
whitespace-trimmed form equals the whitespace-trimmed registered phone,
with no other normalization; in particular `"9876543210"` is rejected
against the stored `"09876543210"`; any rejection reports `PhoneMismatch`
and leaves the session unchanged in `GET_PHONE`. -/
theorem phone_match_characterization (dir : Directory) (now : List Char)
    (s : Session) (t : List Char) (hs : s.state = ConvState.GET_PHONE) :
    ((convStep dir now s (Event.text t)).sess.state = ConvState.CONFIRM ↔
      pyStrip t = pyStrip (studentPhone s))
    ∧ (pyStrip t ≠ pyStrip (studentPhone s) →
        convStep dir now s (Event.text t) = ⟨s, none, Reply.phoneMismatch⟩)
    ∧ convStep dir now phoneSession0 (Event.text (str "9876543210"))
        = ⟨phoneSession0, none, Reply.phoneMismatch⟩ := by
  refine ⟨?_, fun he => ?_, ?_⟩
  · rw [convStep_text_getphone dir now hs t]
    by_cases he : pyStrip t = pyStrip (studentPhone s)
    · rw [get_phone_of_match he]
      simp [he]
    · rw [get_phone_of_mismatch he]
      simp [hs, he]
  · rw [convStep_text_getphone dir now hs t, get_phone_of_mismatch he]
  · rw [convStep_text_getphone dir now rfl (str "9876543210"),
        get_phone_of_mismatch (by decide)]

/-- Witness for C7 at a concrete mismatching phone. -/
theorem phone_match_witness :
    convStep dirEmpty dateC2 phoneSession0 (Event.text (str "123"))
      = ⟨phoneSession0, none, Reply.phoneMismatch⟩ :=
  (phone_match_characterization dirEmpty dateC2 phoneSession0 (str "123")
    (by decide)).2.1 (by decide)

/-- Claim C10: name verification folds case and ignores only surrounding
whitespace — it accepts iff the trimmed, uppercased submission equals the
trimmed, uppercased canonical name, so interior whitespace is compared
literally; any mismatch reports `NameMismatch` and leaves the session
unchanged in `GET_NAME`; in particular `"JANE  DOE"` (two interior spaces)
and `"JANEDOE"` are both rejected against canonical `"Jane Doe"`. -/
theorem name_match_characterization (dir : Directory) (now : List Char)
    (s : Session) (t : List Char) (hs : s.state = ConvState.GET_NAME) :
    ((convStep dir now s (Event.text t)).sess.state = ConvState.GET_PHONE ↔
      pyUpper (pyStrip t) = pyUpper (pyStrip (studentName s)))
    ∧ (pyUpper (pyStrip t) ≠ pyUpper (pyStrip (studentName s)) →
        convStep dir now s (Event.text t) = ⟨s, none, Reply.nameMismatch⟩)
    ∧ convStep dir now janeSession (Event.text (str "JANE  DOE"))
        = ⟨janeSession, none, Reply.nameMismatch⟩
    ∧ convStep dir now janeSession (Event.text (str "JANEDOE"))
        = ⟨janeSession, none, Reply.nameMismatch⟩ := by
  refine ⟨?_, fun he => ?_, ?_, ?_⟩
  · rw [convStep_text_getname dir now hs t]
    by_cases he : pyUpper (pyStrip t) = pyUpper (pyStrip (studentName s))
    · rw [get_name_of_match he]
      simp [he]
    · rw [get_name_of_mismatch he]
      simp [hs, he]
  · rw [convStep_text_getname dir now hs t, get_name_of_mismatch he]
  · rw [convStep_text_getname dir now rfl (str "JANE  DOE"),
        get_name_of_mismatch (by decide)]
  · rw [convStep_text_getname dir now rfl (str "JANEDOE"),
        get_name_of_mismatch (by decide)]

/-- Witness for C10 at a concrete mismatching name. -/
theorem name_match_witness :
    convStep dirEmpty dateC2 janeSession (Event.text (str "JANE  DOE"))
      = ⟨janeSession, none, Reply.nameMismatch⟩ :=
  (name_match_characterization dirEmpty dateC2 janeSession (str "JANE  DOE")
    (by decide)).2.1 (by decide)

/-- Counterexample to C3: an accepted transition (Pending → Approved on a
stored application) leaves `processed_by` absent — the endpoint stamps only
`processed_at`, never the administrator identity the claim asserts. -/
theorem processed_by_counterexample :
    (process_application storeA1 (str "A1") (str "Approved") (str "T1")).2
        = ProcessOutcome.updated
    ∧ ((process_application storeA1 (str "A1") (str "Approved") (str "T1")).1
        (str "A1")).isSome = true
    ∧ ((process_application storeA1 (str "A1") (str "Approved") (str "T1")).1
        (str "A1")).bind AppNode.processed_by = none := by
  decide

/-- Claim C3 as amended: every accepted status update stamps the processing
timestamp `processed_at` on the stored record, but records no administrator
identity — the record's `processed_by` key is exactly what it was before
the update. -/
theorem accepted_update_stamps (store : AppStore) (app_id fs now : List Char)
    (h : pyStrip fs ∈ statusChoices) :
    (process_application store app_id fs now).2 = ProcessOutcome.updated
    ∧ ((process_application store app_id fs now).1 app_id).bind AppNode.processed_at
        = some now
    ∧ ((process_application store app_id fs now).1 app_id).bind AppNode.processed_by
        = (store app_id).bind AppNode.processed_by := by
  rw [process_application_of_valid store app_id fs now h]
  dsimp only
  refine ⟨rfl, ?_, ?_⟩
  · cases hs : store app_id with
    | some n => rw [fbChildUpdate_self_some hs]; rfl
    | none => rw [fbChildUpdate_self_none hs]; rfl
  · cases hs : store app_id with
    | some n => rw [fbChildUpdate_self_some hs]; rfl
    | none => rw [fbChildUpdate_self_none hs]; rfl

/-- Witness for C3's amended statement at a concrete store. -/
theorem accepted_update_stamps_witness :
    (process_application storeA1 (str "A1") (str "Pending") dateC2).2
        = ProcessOutcome.updated
    ∧ ((process_application storeA1 (str "A1") (str "Pending") dateC2).1
        (str "A1")).bind AppNode.processed_at = some dateC2
    ∧ ((process_application storeA1 (str "A1") (str "Pending") dateC2).1
        (str "A1")).bind AppNode.processed_by
        = (storeA1 (str "A1")).bind AppNode.processed_by :=
  accepted_update_stamps storeA1 (str "A1") (str "Pending") dateC2 (by decide)

/-- Claim C4: certificate data assembly yields data only for an Approved
application: an unresolved id yields the distinct `notFound`, an existing
application with any non-Approved status yields `notApproved` with no
certificate data, and whenever data is produced the stored status is
`Approved`. -/
theorem certificate_gating (store : AppStore) (app_id : List Char) :
    (store app_id = none → print_bonafide store app_id = CertResult.notFound)
    ∧ (∀ a : AppNode, store app_id = some a → a.status ≠ some (str "Approved") →
        print_bonafide store app_id = CertResult.notApproved)
    ∧ (∀ d : CertData, print_bonafide store app_id = CertResult.data d →
        ∃ a : AppNode, store app_id = some a ∧ a.status = some (str "Approved")) := by
  refine ⟨fun h => ?_, fun a ha hst => ?_, fun d hd => ?_⟩
  · simp [print_bonafide, h]
  · simp [print_bonafide, ha, hst]
  · cases hs : store app_id with
    | none => simp [print_bonafide, hs] at hd
    | some a =>
        by_cases hst : a.status = some (str "Approved")
        · exact ⟨a, rfl, hst⟩
        · simp [print_bonafide, hs, hst] at hd

/-- Witness for C4 at a stored Pending application. -/
theorem certificate_gating_witness :
    print_bonafide storeA1 (str "A1") = CertResult.notApproved :=
  (certificate_gating storeA1 (str "A1")).2.1 nodePendingA1 (by decide) (by decide)

/-- Counterexample to C5: the posted status `" Approved "` is outside the
closed set as a raw string, yet the endpoint strips it first, accepts the
update and writes the record — refuting the claim that every request whose
target status is outside the set is rejected with the record unchanged. -/
theorem invalid_status_counterexample :
    str " Approved " ∉ statusChoices
    ∧ (process_application storeA1 (str "A1") (str " Approved ") (str "T2")).2
        = ProcessOutcome.updated
    ∧ ((process_application storeA1 (str "A1") (str " Approved ") (str "T2")).1
        (str "A1")).bind AppNode.status = some (str "Approved") := by
  decide

/-- Claim C5 as amended: a status-update request whose whitespace-trimmed target
status is not in the closed set `{Pending, Approved, Rejected}` is rejected
with `invalidStatus` and the store is returned untouched — no field of any
record is written. -/
theorem invalid_status_rejected (store : AppStore) (app_id fs now : List Char)
    (h : pyStrip fs ∉ statusChoices) :
    process_application store app_id fs now = (store, ProcessOutcome.invalidStatus) :=
  process_application_of_invalid store app_id fs now h

/-- Witness for C5's amended statement at the status `"Bogus"`. -/
theorem invalid_status_rejected_witness :
    process_application storeA1 (str "A1") (str "Bogus") (str "T3")
      = (storeA1, ProcessOutcome.invalidStatus) :=
  invalid_status_rejected storeA1 (str "A1") (str "Bogus") (str "T3") (by decide)

/-- Claim C6: every accepted status update on a stored application succeeds —
including setting an Approved application's status to Approved again — and
replaces only `status` and `processed_at` on the record: requester prn,
name, phone, batch and every remaining field are exactly preserved, and
every other id in the store is untouched. -/
theorem accepted_update_frame (store : AppStore) (app_id fs now : List Char)
    (a : AppNode) (hs : store app_id = some a) (h : pyStrip fs ∈ statusChoices) :
    (process_application store app_id fs now).2 = ProcessOutcome.updated
    ∧ (process_application store app_id fs now).1 app_id =
        some { a with status := some (pyStrip fs), processed_at := some now }
    ∧ ∀ k : List Char, k ≠ app_id →
        (process_application store app_id fs now).1 k = store k := by
  rw [process_application_of_valid store app_id fs now h]
  dsimp only
  exact ⟨rfl, fbChildUpdate_self_some hs _ _, fun k hk => fbChildUpdate_other hk _ _⟩

/-- Witness for C6: re-approving an already Approved application. -/
theorem accepted_update_frame_witness :
    (process_application storeB1 (str "B1") (str "Approved") (str "T4")).1 (str "B1") =
      some { nodeApprovedB1 with
             status := some (pyStrip (str "Approved")),
             processed_at := some (str "T4") } :=
  (accepted_update_frame storeB1 (str "B1") (str "Approved") (str "T4")
    nodeApprovedB1 (by decide) (by decide)).2.1

/-- Counterexample to C9: updating an id that resolves to no record does not
fail with NotFound — the endpoint reports success, and a record then exists
at that id (Firebase `update` creates the missing path). -/
theorem update_missing_counterexample :
    emptyStore (str "ghost") = none
    ∧ (process_application emptyStore (str "ghost") (str "Approved") (str "T5")).2
        = ProcessOutcome.updated
    ∧ ((process_application emptyStore (str "ghost") (str "Approved") (str "T5")).1
        (str "ghost")).isSome = true := by
  decide

/-- Claim C9 as amended: the update operation applied to an unresolved application
id does not return NotFound: it reports success and creates a fresh partial
record holding only `status` and `processed_at`, leaving every other id
unchanged. -/
theorem update_missing_creates (store : AppStore) (app_id fs now : List Char)
    (hm : store app_id = none) (h : pyStrip fs ∈ statusChoices) :
    (process_application store app_id fs now).2 = ProcessOutcome.updated
    ∧ (process_application store app_id fs now).1 app_id =
        some { status := some (pyStrip fs), processed_at := some now }
    ∧ ∀ k : List Char, k ≠ app_id →
        (process_application store app_id fs now).1 k = store k := by
  rw [process_application_of_valid store app_id fs now h]
  dsimp only
  exact ⟨rfl, fbChildUpdate_self_none hm _ _, fun k hk => fbChildUpdate_other hk _ _⟩

/-- Witness for C9's amended statement at an empty store. -/
theorem update_missing_creates_witness :
    (process_application emptyStore (str "ghost") (str "Rejected") (str "T6")).1
        (str "ghost") =
      some { status := some (pyStrip (str "Rejected")), processed_at := some (str "T6") } :=
  (update_missing_creates emptyStore (str "ghost") (str "Rejected") (str "T6")
    rfl (by decide)).2.1
